import Mathlib

/-!  Verification of the hand pose and motion classifier
(`HandDetector` in `src/20250908/hand_transition_updated.py`).

The geometric classifiers (`count_fingers`, `is_palm_showing`) and the
stateful flip/motion detector (`track_hand_motion`,
`detect_flipping_motion`, the `detect_hands` frame driver) are embedded
over exact rational arithmetic.  The one square root of the source, the
normalisation of the orientation normal inside `track_hand_motion`, is
embedded over the reals as `handNormal`; the detector state machine
consumes per-frame samples (`HandData`) directly, exactly as the
source's history deque does.  -/

/-- A 3-component vector (the length-3 numpy arrays of the source). -/
structure Vec3 where
  x : ℚ
  y : ℚ
  z : ℚ
deriving DecidableEq, Inhabited

/-- Componentwise subtraction of 3-vectors. -/
def subVec (a b : Vec3) : Vec3 :=
  ⟨a.x - b.x, a.y - b.y, a.z - b.z⟩

/-- Cross product of 3-vectors (`np.cross`). -/
def crossVec (a b : Vec3) : Vec3 :=
  ⟨a.y * b.z - a.z * b.y, a.z * b.x - a.x * b.z, a.x * b.y - a.y * b.x⟩

/-- Squared Euclidean norm.  The source compares `np.linalg.norm v > t`
with a non-negative threshold `t`; over exact arithmetic that comparison
is equivalent to `normSq v > t ^ 2`, which avoids square roots. -/
def normSq (v : Vec3) : ℚ := v.x ^ 2 + v.y ^ 2 + v.z ^ 2

/-- The two hand labels produced by the landmark stage. -/
inductive HandType where
  | Left
  | Right
deriving DecidableEq

/-- The `"Left"` / `"Right"` string of a hand label. -/
def HandType.label : HandType → String
  | .Left => "Left"
  | .Right => "Right"

/-- A landmark set: 21 three-dimensional points, indexed anatomically
(wrist = 0, thumb IP = 3, thumb tip = 4, index MCP = 5, pinky MCP = 17,
fingertips 8, 12, 16, 20). -/
abbrev LandmarkSet := Fin 21 → Vec3

/-- The orientation normal computed inside `is_palm_showing`: the cross
product of (indexMCP − wrist) and (pinkyMCP − wrist), landmarks 5, 0 and
17, left unnormalised. -/
def palmNormal (lm : LandmarkSet) : Vec3 :=
  crossVec (subVec (lm 5) (lm 0)) (subVec (lm 17) (lm 0))

/-- Embeds `HandDetector.is_palm_showing`: for `Right` hands the palm
faces the camera iff `normal[2] > 0`, for `Left` hands iff
`normal[2] < 0`. -/
def is_palm_showing (lm : LandmarkSet) (hand_type : HandType) : Bool :=
  let normal := palmNormal lm
  match hand_type with
  | .Right => decide (normal.z > 0)
  | .Left => decide (normal.z < 0)

/-- Embeds `HandDetector.count_fingers`: the extended-finger count and
the 5-element status vector (thumb, index, middle, ring, pinky).  The
thumb rule depends on handedness and on `is_palm_showing`; each other
finger compares its tip's y-coordinate with the joint two indices
below. -/
def count_fingers (lm : LandmarkSet) (hand_type : HandType) : ℕ × List Bool :=
  let palm_showing := is_palm_showing lm hand_type
  let thumb : Bool :=
    match hand_type with
    | .Left =>
        if palm_showing then decide ((lm 4).x > (lm 3).x) else decide ((lm 4).x < (lm 3).x)
    | .Right =>
        if palm_showing then decide ((lm 4).x < (lm 3).x) else decide ((lm 4).x > (lm 3).x)
  let finger_statuses : List Bool :=
    [thumb,
     decide ((lm 8).y < (lm 6).y),
     decide ((lm 12).y < (lm 10).y),
     decide ((lm 16).y < (lm 14).y),
     decide ((lm 20).y < (lm 18).y)]
  (finger_statuses.count true, finger_statuses)

/-- One entry of the motion history: the `current_data` dict built in
`track_hand_motion` (wrist position, orientation normal, palm flag,
middle fingertip position). -/
structure HandData where
  wrist : Vec3
  normal : Vec3
  is_palm_showing : Bool
  middle_tip : Vec3
deriving DecidableEq, Inhabited

/-- The mutable per-identity state created by `HandDetector.__init__`:
`hand_history` (deques of capacity 10), `hand_motion_status` strings and
the `flip_cooldown` counters. -/
structure DetectorState where
  hand_history : HandType → List HandData
  hand_motion_status : HandType → String
  flip_cooldown : HandType → ℤ

/-- `self.cooldown_frames = 15`. -/
def cooldown_frames : ℤ := 15

/-- The state as initialised by `HandDetector.__init__`. -/
def initState : DetectorState :=
  { hand_history := fun _ => [],
    hand_motion_status := fun _ => ("Unknown"),
    flip_cooldown := fun _ => 0 }

/-- Appending to a `deque(maxlen=10)`: at capacity the oldest entry is
evicted first. -/
def dequeAppend (l : List HandData) (d : HandData) : List HandData :=
  if l.length = 10 then l.tail ++ [d] else l ++ [d]

/-- The consecutive differences `[xs[i+1] - xs[i] for i in range(len(xs)-1)]`. -/
def normal_changes (normals : List ℚ) : List ℚ :=
  (normals.zip normals.tail).map fun p => p.2 - p.1

/-- `avg_change`: the mean of the consecutive differences of the
normal's z-component over the whole history window (`0` when there are
no differences). -/
def avg_normal_change (history : List HandData) : ℚ :=
  let changes := normal_changes (history.map fun d => d.normal.z)
  if changes ≠ [] then changes.sum / (changes.length : ℚ) else 0

/-- `is_palm_showing` of the oldest history sample (`list(history)[0]`). -/
def oldest_palm (history : List HandData) : Bool :=
  (history.headD default).is_palm_showing

/-- `is_palm_showing` of the newest history sample (`list(history)[-1]`). -/
def newest_palm (history : List HandData) : Bool :=
  (history.getLastD default).is_palm_showing

/-- Squared wrist displacement between the 3rd-from-last and the last
history samples (the source's
`np.linalg.norm(wrist_positions[-1] - wrist_positions[0])` over
`range(-3, 0)`, compared squared, see `normSq`). -/
def wrist_movement_sq (history : List HandData) : ℚ :=
  normSq (subVec (history.getLastD default).wrist
    (history.getD (history.length - 3) default).wrist)

/-- Renders a non-negative rational with 4 decimal places, as the
format `:.4f` does for the non-negative velocity in the source (the
formatter rounds to the nearest 4-decimal value; it is only ever
applied to `abs(avg_change)`). -/
def fmt4 (q : ℚ) : String :=
  let n : ℤ := ⌊q * 10000 + 1 / 2⌋
  let fracStr := toString (n % 10000).toNat
  toString (n / 10000) ++ "." ++
    (String.mk (List.replicate (4 - fracStr.length) '0') ++ fracStr)

/-- The flip event message
`f"{hand_type} Hand flipped: {flip_direction} (velocity: {normal_velocity:.4f})"`. -/
def flipMsg (hand_type : HandType) (flip_direction velocity : String) : String :=
  hand_type.label ++ " Hand flipped: " ++ flip_direction ++
    " (velocity: " ++ velocity ++ ")"

/-- Embeds `HandDetector.detect_flipping_motion`: the optional flip
event message together with the updated detector state. -/
def detect_flipping_motion (s : DetectorState) (hand_type : HandType) :
    Option String × DetectorState :=
  if 0 < s.flip_cooldown hand_type then (none, s)
  else
    let history := s.hand_history hand_type
    if history.length < 5 then (none, s)
    else
      let avg_change := avg_normal_change history
      if oldest_palm history ≠ newest_palm history ∧ 0.015 < |avg_change| then
        let flip_direction :=
          if newest_palm history = false then ("Palm to Back") else ("Back to Palm")
        (some (flipMsg hand_type flip_direction (fmt4 |avg_change|)),
         { s with
             hand_motion_status := fun h =>
               if h = hand_type then ("Flipping: " ++ flip_direction)
               else s.hand_motion_status h,
             flip_cooldown := fun h =>
               if h = hand_type then cooldown_frames else s.flip_cooldown h })
      else
        if 3 ≤ history.length then
          let status :=
            if 0.05 ^ 2 < wrist_movement_sq history then ("Moving")
            else if 0.01 < |avg_change| then ("Rotating")
            else ("Stable")
          (none,
           { s with
               hand_motion_status := fun h =>
                 if h = hand_type then status else s.hand_motion_status h })
        else (none, s)

/-- Embeds the stateful tail of `HandDetector.track_hand_motion`:
append the frame's `current_data` to the identity's history deque and,
once at least 5 samples exist, run `detect_flipping_motion`.  (The
geometric construction of `current_data` from raw landmarks, which
normalises a cross product, is embedded over the reals as `handNormal`
below.) -/
def track_hand_motion (s : DetectorState) (hand_type : HandType)
    (current_data : HandData) : Option String × DetectorState :=
  let s1 : DetectorState :=
    { s with
        hand_history := fun h =>
          if h = hand_type then dequeAppend (s.hand_history h) current_data
          else s.hand_history h }
  if (s1.hand_history hand_type).length < 5 then (none, s1)
  else detect_flipping_motion s1 hand_type

/-- One frame's detections: the hand label and the sample that
`track_hand_motion` builds for it, in detection order. -/
abbrev Frame := List (HandType × HandData)

/-- The per-hand loop of `HandDetector.detect_hands`: each detected
hand is run through `track_hand_motion` and a returned message is
appended to `motion_messages`. -/
def process_detections (s : DetectorState) (msgs : List String) :
    Frame → DetectorState × List String
  | [] => (s, msgs)
  | det :: rest =>
      let r := track_hand_motion s det.1 det.2
      process_detections r.2
        (msgs ++ (match r.1 with | some m => [m] | none => [])) rest

/-- Embeds the state effect of `HandDetector.detect_hands` for one
frame: when hands are detected each is tracked in order; when none are
detected, every identity with a non-empty history is cleared and its
status reset to Unknown; finally every positive cooldown counter is
decremented by one.  (The stateless per-hand record assembly —
`count_fingers`, `is_palm_showing`, the `hands_info` dicts — reads but
never writes the tracked state and is embedded separately above.) -/
def detect_hands (s : DetectorState) (detections : Frame) :
    DetectorState × List String :=
  let r :=
    if detections = ([] : Frame) then
      ({ s with
           hand_history := fun h =>
             if 0 < (s.hand_history h).length then ([] : List HandData)
             else s.hand_history h,
           hand_motion_status := fun h =>
             if 0 < (s.hand_history h).length then ("Unknown")
             else s.hand_motion_status h }, ([] : List String))
    else process_detections s [] detections
  ({ r.1 with
       flip_cooldown := fun h =>
         if 0 < r.1.flip_cooldown h then r.1.flip_cooldown h - 1
         else r.1.flip_cooldown h }, r.2)

/-- Runs `detect_hands` over a sequence of frames, collecting all
motion messages. -/
def run (s : DetectorState) : List Frame → DetectorState × List String
  | [] => (s, [])
  | f :: fs =>
      let r := detect_hands s f
      let r' := run r.1 fs
      (r'.1, r.2 ++ r'.2)

/-- A 3-component real vector, for the one normalising computation of
the source. -/
structure Vec3R where
  x : ℝ
  y : ℝ
  z : ℝ

/-- Componentwise subtraction of real 3-vectors. -/
def subVecR (a b : Vec3R) : Vec3R :=
  ⟨a.x - b.x, a.y - b.y, a.z - b.z⟩

/-- Cross product of real 3-vectors (`np.cross`). -/
def crossVecR (a b : Vec3R) : Vec3R :=
  ⟨a.y * b.z - a.z * b.y, a.z * b.x - a.x * b.z, a.x * b.y - a.y * b.x⟩

/-- `np.linalg.norm` of a real 3-vector. -/
noncomputable def np_linalg_norm (v : Vec3R) : ℝ :=
  Real.sqrt (v.x ^ 2 + v.y ^ 2 + v.z ^ 2)

/-- Componentwise division of a real 3-vector by a scalar. -/
noncomputable def divVecR (v : Vec3R) (c : ℝ) : Vec3R :=
  ⟨v.x / c, v.y / c, v.z / c⟩

/-- Embeds the normal computation of `track_hand_motion`: the cross
product of (indexMCP − wrist) and (pinkyMCP − wrist), normalised when
its norm is positive and left untouched otherwise. -/
noncomputable def handNormal (wrist_pos index_pos pinky_pos : Vec3R) : Vec3R :=
  let normal := crossVecR (subVecR index_pos wrist_pos) (subVecR pinky_pos wrist_pos)
  let norm_val := np_linalg_norm normal
  if 0 < norm_val then divVecR normal norm_val else normal

/-- The conditions under which `detect_flipping_motion` emits a flip
for `hand_type` once the frame's sample `d` has been appended to its
history: at least 5 samples, a palm reversal across the window, and an
average normal-z change of magnitude above 0.015. -/
def flip_conditions (s : DetectorState) (hand_type : HandType) (d : HandData) : Prop :=
  let hist := dequeAppend (s.hand_history hand_type) d
  5 ≤ hist.length ∧ oldest_palm hist ≠ newest_palm hist ∧
    0.015 < |avg_normal_change hist|

/-- A minimal history sample for concrete instantiations: wrist at the
origin, the given palm flag and normal z-component. -/
def mkSample (pf : Bool) (z : ℚ) : HandData :=
  ⟨⟨0, 0, 0⟩, ⟨0, 0, z⟩, pf, ⟨0, 0, 0⟩⟩

/-- A sample with the given wrist position and a fixed orientation. -/
def mkWristSample (w : Vec3) : HandData := ⟨w, ⟨0, 0, 0⟩, true, ⟨0, 0, 0⟩⟩

/-- A neutral sample. -/
def oneSample : HandData := mkSample true 0

/-- The flip scenario of the specification: five samples for the given
identity, palm flags oldest `true` … newest `false`, normal-z sequence
0.10, 0.07, 0.03, −0.02, −0.05, no cooldown. -/
def scenarioState (h : HandType) : DetectorState :=
  { hand_history := fun h' =>
      if h' = h then
        [mkSample true 0.10, mkSample true 0.07, mkSample true 0.03,
         mkSample false (-0.02), mkSample false (-0.05)]
      else [],
    hand_motion_status := fun _ => ("Unknown"),
    flip_cooldown := fun _ => 0 }

/-- The first four scenario samples: one frame short of the flip. -/
def preFlipState (h : HandType) : DetectorState :=
  { hand_history := fun h' =>
      if h' = h then
        [mkSample true 0.10, mkSample true 0.07, mkSample true 0.03,
         mkSample false (-0.02)]
      else [],
    hand_motion_status := fun _ => ("Unknown"),
    flip_cooldown := fun _ => 0 }

/-- The single-detection frame that completes the flip scenario. -/
def flipFrame (h : HandType) : Frame := [(h, mkSample false (-0.05))]

/-- Five constant samples: palm up, normal-z constantly zero. -/
def stableState (h : HandType) : DetectorState :=
  { hand_history := fun h' =>
      if h' = h then
        [mkSample true 0, mkSample true 0, mkSample true 0,
         mkSample true 0, mkSample true 0]
      else [],
    hand_motion_status := fun _ => ("Unknown"),
    flip_cooldown := fun _ => 0 }

/-- A state whose cooldown counters are 5 and whose Left status is a
flip label. -/
def cdState : DetectorState :=
  { initState with
      hand_motion_status := fun _ => ("Flipping: Palm to Back"),
      flip_cooldown := fun _ => 5 }

/-- A single-detection frame whose sample has the given wrist. -/
def movingFrame (h : HandType) (w : Vec3) : Frame := [(h, mkWristSample w)]

/-- All landmarks at the origin: collinear points, zero cross product. -/
def degenerateLm : LandmarkSet := fun _ => ⟨0, 0, 0⟩

/-- Landmarks with a non-degenerate orientation normal (z-component 1). -/
def spreadLm : LandmarkSet := fun i =>
  if i = 5 then ⟨1, 0, 0⟩ else if i = 17 then ⟨0, 1, 0⟩ else ⟨0, 0, 0⟩

/-- Eleven pairwise distinct samples, for the FIFO instantiation. -/
def elevenSamples : List HandData :=
  [mkSample true 0, mkSample true 1, mkSample true 2, mkSample true 3,
   mkSample true 4, mkSample true 5, mkSample true 6, mkSample true 7,
   mkSample true 8, mkSample true 9, mkSample true 10]

/-- Exhaustive case analysis of `detect_flipping_motion`: blocked (by
cooldown or a short history), the Moving/Rotating/Stable branch, or the
flip branch, with the exact result in each case. -/
theorem detect_flipping_cases (s : DetectorState) (hand_type : HandType) :
    ((0 < s.flip_cooldown hand_type ∨ (s.hand_history hand_type).length < 5)
       ∧ detect_flipping_motion s hand_type = (none, s))
    ∨ (¬ 0 < s.flip_cooldown hand_type ∧ 5 ≤ (s.hand_history hand_type).length
       ∧ ¬(oldest_palm (s.hand_history hand_type) ≠ newest_palm (s.hand_history hand_type)
            ∧ 0.015 < |avg_normal_change (s.hand_history hand_type)|)
       ∧ detect_flipping_motion s hand_type =
          (none,
           { s with hand_motion_status := fun h =>
               if h = hand_type then
                 (if 0.05 ^ 2 < wrist_movement_sq (s.hand_history hand_type) then ("Moving")
                  else if 0.01 < |avg_normal_change (s.hand_history hand_type)| then ("Rotating")
                  else ("Stable"))
               else s.hand_motion_status h }))
    ∨ (¬ 0 < s.flip_cooldown hand_type ∧ 5 ≤ (s.hand_history hand_type).length
       ∧ oldest_palm (s.hand_history hand_type) ≠ newest_palm (s.hand_history hand_type)
       ∧ 0.015 < |avg_normal_change (s.hand_history hand_type)|
       ∧ detect_flipping_motion s hand_type =
          (some (flipMsg hand_type
                  (if newest_palm (s.hand_history hand_type) = false then ("Palm to Back")
                   else ("Back to Palm"))
                  (fmt4 |avg_normal_change (s.hand_history hand_type)|)),
           { s with
               hand_motion_status := fun h =>
                 if h = hand_type then
                   ("Flipping: " ++
                     (if newest_palm (s.hand_history hand_type) = false then ("Palm to Back")
                      else ("Back to Palm")))
                 else s.hand_motion_status h,
               flip_cooldown := fun h =>
                 if h = hand_type then cooldown_frames else s.flip_cooldown h })) := by
  by_cases h1 : 0 < s.flip_cooldown hand_type
  · exact Or.inl ⟨Or.inl h1, by simp [detect_flipping_motion, h1]⟩
  by_cases h2 : (s.hand_history hand_type).length < 5
  · exact Or.inl ⟨Or.inr h2, by simp [detect_flipping_motion, h1, h2]⟩
  by_cases h3 : oldest_palm (s.hand_history hand_type) ≠ newest_palm (s.hand_history hand_type)
      ∧ 0.015 < |avg_normal_change (s.hand_history hand_type)|
  · refine Or.inr (Or.inr ⟨h1, by omega, h3.1, h3.2, ?_⟩)
    simp [detect_flipping_motion, h1, h2, h3]
  · have h4 : 3 ≤ (s.hand_history hand_type).length := by omega
    refine Or.inr (Or.inl ⟨h1, by omega, h3, ?_⟩)
    simp [detect_flipping_motion, h1, h2, h3, h4]

/-- A positive cooldown makes `detect_flipping_motion` return no event
and leave the state untouched. -/
theorem detect_flipping_blocked (s : DetectorState) (hand_type : HandType)
    (h : 0 < s.flip_cooldown hand_type) :
    detect_flipping_motion s hand_type = (none, s) := by
  simp [detect_flipping_motion, h]

/-- `detect_flipping_motion` never modifies any history. -/
theorem detect_flipping_hand_history (s : DetectorState) (hand_type : HandType) :
    (detect_flipping_motion s hand_type).2.hand_history = s.hand_history := by
  rcases detect_flipping_cases s hand_type with ⟨_, e⟩ | ⟨_, _, _, e⟩ | ⟨_, _, _, _, e⟩ <;>
    simp [e]

/-- `detect_flipping_motion` for one hand does not touch the other
hand's status or cooldown. -/
theorem detect_flipping_other (s : DetectorState) (hand_type h : HandType)
    (hne : h ≠ hand_type) :
    (detect_flipping_motion s hand_type).2.flip_cooldown h = s.flip_cooldown h
    ∧ (detect_flipping_motion s hand_type).2.hand_motion_status h = s.hand_motion_status h := by
  rcases detect_flipping_cases s hand_type with ⟨_, e⟩ | ⟨_, _, _, e⟩ | ⟨_, _, _, _, e⟩ <;>
    simp [e, hne]

/-- `detect_flipping_motion` keeps cooldown counters non-negative. -/
theorem detect_flipping_nonneg (s : DetectorState) (hand_type h : HandType)
    (hnn : 0 ≤ s.flip_cooldown h) :
    0 ≤ (detect_flipping_motion s hand_type).2.flip_cooldown h := by
  rcases detect_flipping_cases s hand_type with ⟨_, e⟩ | ⟨_, _, _, e⟩ | ⟨_, _, _, _, e⟩ <;>
    simp [e]
  · exact hnn
  · exact hnn
  · split
    · simp [cooldown_frames]
    · exact hnn

/-- When no event is returned, no cooldown counter changed. -/
theorem detect_flipping_none_cooldown (s : DetectorState) (hand_type : HandType)
    (hn : (detect_flipping_motion s hand_type).1 = none) :
    (detect_flipping_motion s hand_type).2.flip_cooldown = s.flip_cooldown := by
  rcases detect_flipping_cases s hand_type with ⟨_, e⟩ | ⟨_, _, _, e⟩ | ⟨_, _, _, _, e⟩ <;>
    simp [e] at hn ⊢

/-- A returned event message is a flip message for the evaluated hand,
and that hand's cooldown was armed to `cooldown_frames`. -/
theorem detect_flipping_some_shape (s : DetectorState) (hand_type : HandType) (m : String)
    (hm : (detect_flipping_motion s hand_type).1 = some m) :
    (∃ dir v, m = flipMsg hand_type dir v)
    ∧ (detect_flipping_motion s hand_type).2.flip_cooldown hand_type = cooldown_frames := by
  rcases detect_flipping_cases s hand_type with ⟨_, e⟩ | ⟨_, _, _, e⟩ | ⟨_, _, _, _, e⟩ <;>
    simp [e] at hm ⊢
  exact ⟨_, _, hm.symm⟩

/-- Flip messages identify their hand: messages for distinct hands are
distinct strings. -/
theorem flipMsg_hand_eq {h h' : HandType} {d v d' v' : String}
    (he : flipMsg h d v = flipMsg h' d' v') : h = h' := by
  cases h <;> cases h' <;> try rfl
  all_goals
    exfalso
    have hd := congrArg String.data he
    simp only [flipMsg, HandType.label, String.data_append] at hd
    simp at hd

/-- `track_hand_motion` appends to the tracked hand's history (and
touches no other history). -/
theorem track_hand_history (s : DetectorState) (hand_type : HandType) (d : HandData) :
    (track_hand_motion s hand_type d).2.hand_history hand_type
      = dequeAppend (s.hand_history hand_type) d := by
  simp only [track_hand_motion, eq_self_iff_true, if_true]
  split
  · simp
  · rw [detect_flipping_hand_history]
    simp

/-- `track_hand_motion` leaves every field of the other hand unchanged,
and never changes any hand's history apart from the tracked one. -/
theorem track_other (s : DetectorState) (hand_type h : HandType) (d : HandData)
    (hne : h ≠ hand_type) :
    (track_hand_motion s hand_type d).2.hand_history h = s.hand_history h
    ∧ (track_hand_motion s hand_type d).2.hand_motion_status h = s.hand_motion_status h
    ∧ (track_hand_motion s hand_type d).2.flip_cooldown h = s.flip_cooldown h := by
  simp only [track_hand_motion, eq_self_iff_true, if_true]
  split
  · simp [hne]
  · rw [detect_flipping_hand_history]
    have := detect_flipping_other { s with
        hand_history := fun h' =>
          if h' = hand_type then dequeAppend (s.hand_history h') d
          else s.hand_history h' } hand_type h hne
    exact ⟨by simp [hne], this.2, this.1⟩

/-- With a positive cooldown on the tracked hand, `track_hand_motion`
returns no event and changes nothing but that hand's history. -/
theorem track_blocked (s : DetectorState) (hand_type : HandType) (d : HandData)
    (hc : 0 < s.flip_cooldown hand_type) :
    (track_hand_motion s hand_type d).1 = none
    ∧ (track_hand_motion s hand_type d).2.flip_cooldown = s.flip_cooldown
    ∧ (track_hand_motion s hand_type d).2.hand_motion_status = s.hand_motion_status := by
  simp only [track_hand_motion, eq_self_iff_true, if_true]
  split
  · simp
  · rw [detect_flipping_blocked _ _ (by simpa using hc)]
    simp

/-- `track_hand_motion` keeps cooldown counters non-negative. -/
theorem track_nonneg (s : DetectorState) (hand_type h : HandType) (d : HandData)
    (hnn : 0 ≤ s.flip_cooldown h) :
    0 ≤ (track_hand_motion s hand_type d).2.flip_cooldown h := by
  simp only [track_hand_motion, eq_self_iff_true, if_true]
  split
  · simpa using hnn
  · exact detect_flipping_nonneg _ _ _ (by simpa using hnn)

/-- When `track_hand_motion` returns no event, no cooldown changed. -/
theorem track_none_cooldown (s : DetectorState) (hand_type : HandType) (d : HandData)
    (hn : (track_hand_motion s hand_type d).1 = none) :
    (track_hand_motion s hand_type d).2.flip_cooldown = s.flip_cooldown := by
  simp only [track_hand_motion, eq_self_iff_true, if_true] at *
  by_cases hlen : (dequeAppend (s.hand_history hand_type) d).length < 5
  · simp [hlen]
  · simp only [if_neg hlen] at hn ⊢
    rw [detect_flipping_none_cooldown _ _ hn]

/-- A message returned by `track_hand_motion` is a flip message of the
tracked hand, whose cooldown was armed to `cooldown_frames`. -/
theorem track_some_shape (s : DetectorState) (hand_type : HandType) (d : HandData) (m : String)
    (hm : (track_hand_motion s hand_type d).1 = some m) :
    (∃ dir v, m = flipMsg hand_type dir v)
    ∧ (track_hand_motion s hand_type d).2.flip_cooldown hand_type = cooldown_frames := by
  simp only [track_hand_motion, eq_self_iff_true, if_true] at *
  by_cases hlen : (dequeAppend (s.hand_history hand_type) d).length < 5
  · simp [hlen] at hm
  · simp only [if_neg hlen] at hm ⊢
    exact detect_flipping_some_shape _ _ _ hm

/-- Appending to a deque of capacity 10 preserves the length bound. -/
theorem dequeAppend_length_le (l : List HandData) (d : HandData) (hl : l.length ≤ 10) :
    (dequeAppend l d).length ≤ 10 := by
  unfold dequeAppend
  split
  · rename_i h10
    simp [List.length_append, List.length_tail, h10]
  · rename_i h10
    simp only [List.length_append, List.length_cons, List.length_nil]
    omega

/-- At capacity, the append evicts exactly the oldest entry. -/
theorem dequeAppend_full (l : List HandData) (d : HandData) (hl : l.length = 10) :
    dequeAppend l d = l.tail ++ [d] := by
  unfold dequeAppend
  simp [hl]

/-- Below capacity, repeated appends are plain appends. -/
theorem foldl_dequeAppend_small (l : List HandData) :
    ∀ acc : List HandData, acc.length + l.length ≤ 10 →
      List.foldl dequeAppend acc l = acc ++ l := by
  induction l with
  | nil => intro acc _; simp
  | cons d rest ih =>
      intro acc hle
      have hne : ¬ acc.length = 10 := by simp at hle; omega
      simp only [List.foldl_cons]
      rw [show dequeAppend acc d = acc ++ [d] from by unfold dequeAppend; simp [hne]]
      rw [ih (acc ++ [d]) (by simp at hle ⊢; omega)]
      simp

/-- Appending 11 samples into an empty deque leaves the last 10: the
first-appended sample is evicted. -/
theorem foldl_dequeAppend_eleven (l : List HandData) (hl : l.length = 11) :
    List.foldl dequeAppend [] l = l.tail := by
  rcases List.eq_nil_or_concat l with rfl | ⟨l10, d, rfl⟩
  · simp at hl
  · simp only [List.concat_eq_append] at hl ⊢
    have h10 : l10.length = 10 := by simp at hl; omega
    rw [List.foldl_append]
    rw [foldl_dequeAppend_small l10 [] (by simp [h10])]
    simp only [List.foldl_cons, List.foldl_nil, List.nil_append]
    rw [dequeAppend_full _ _ h10]
    rcases l10 with _ | ⟨a, as⟩
    · simp at h10
    · simp

/-- Invariance of the detection loop for a hand whose cooldown is
positive at entry: its cooldown and status survive the whole loop, and
every collected message is either an old one or a flip message of
another hand. -/
theorem process_cooldown_pos (dets : Frame) :
    ∀ (s : DetectorState) (msgs : List String) (h : HandType),
      0 < s.flip_cooldown h →
      (process_detections s msgs dets).1.flip_cooldown h = s.flip_cooldown h
      ∧ (process_detections s msgs dets).1.hand_motion_status h = s.hand_motion_status h
      ∧ ∀ m ∈ (process_detections s msgs dets).2,
          m ∈ msgs ∨ ∃ h' d v, h' ≠ h ∧ m = flipMsg h' d v := by
  induction dets with
  | nil =>
      intro s msgs h _
      exact ⟨rfl, rfl, fun m hm => Or.inl hm⟩
  | cons det rest ih =>
      intro s msgs h hc
      have hstate : (track_hand_motion s det.1 det.2).2.flip_cooldown h = s.flip_cooldown h
          ∧ (track_hand_motion s det.1 det.2).2.hand_motion_status h
              = s.hand_motion_status h := by
        by_cases hh : det.1 = h
        · subst hh
          obtain ⟨-, he2, he3⟩ := track_blocked s det.1 det.2 hc
          exact ⟨by rw [he2], by rw [he3]⟩
        · have hne : h ≠ det.1 := fun e => hh e.symm
          obtain ⟨-, t2, t3⟩ := track_other s det.1 h det.2 hne
          exact ⟨t3, t2⟩
      have hc' : 0 < (track_hand_motion s det.1 det.2).2.flip_cooldown h := by
        rw [hstate.1]; exact hc
      simp only [process_detections]
      rcases htr : (track_hand_motion s det.1 det.2).1 with _ | m'
      · simp only [htr, List.append_nil]
        obtain ⟨ih1, ih2, ih3⟩ := ih _ msgs h hc'
        exact ⟨by rw [ih1, hstate.1], by rw [ih2, hstate.2], ih3⟩
      · have hsh := track_some_shape s det.1 det.2 m' htr
        have hdne : det.1 ≠ h := by
          intro e
          have hb := (track_blocked s det.1 det.2 (by rw [e]; exact hc)).1
          rw [htr] at hb
          exact Option.noConfusion hb
        simp only [htr]
        obtain ⟨ih1, ih2, ih3⟩ := ih _ (msgs ++ [m']) h hc'
        refine ⟨by rw [ih1, hstate.1], by rw [ih2, hstate.2], fun m hm => ?_⟩
        rcases ih3 m hm with hmem | hother
        · rcases List.mem_append.mp hmem with h1 | h2
          · exact Or.inl h1
          · rcases hsh.1 with ⟨dir, v, hm2⟩
            have hmm : m = m' := by simpa using h2
            exact Or.inr ⟨det.1, dir, v, hdne, hmm.trans hm2⟩
        · exact Or.inr hother

/-- The detection loop keeps cooldown counters non-negative. -/
theorem process_nonneg (dets : Frame) :
    ∀ (s : DetectorState) (msgs : List String) (h : HandType),
      0 ≤ s.flip_cooldown h →
      0 ≤ (process_detections s msgs dets).1.flip_cooldown h := by
  induction dets with
  | nil => intro s msgs h hnn; exact hnn
  | cons det rest ih =>
      intro s msgs h hnn
      simp only [process_detections]
      exact ih _ _ _ (track_nonneg s det.1 h det.2 hnn)

/-- A hand that appears in none of the detections is untouched by the
detection loop. -/
theorem process_other (dets : Frame) :
    ∀ (s : DetectorState) (msgs : List String) (h : HandType),
      (∀ det ∈ dets, det.1 ≠ h) →
      (process_detections s msgs dets).1.hand_history h = s.hand_history h
      ∧ (process_detections s msgs dets).1.hand_motion_status h = s.hand_motion_status h
      ∧ (process_detections s msgs dets).1.flip_cooldown h = s.flip_cooldown h := by
  induction dets with
  | nil => intro s msgs h _; exact ⟨rfl, rfl, rfl⟩
  | cons det rest ih =>
      intro s msgs h hall
      simp only [process_detections]
      have hne : h ≠ det.1 := fun e => (hall det (by simp)) e.symm
      obtain ⟨t1, t2, t3⟩ := track_other s det.1 h det.2 hne
      obtain ⟨i1, i2, i3⟩ := ih _ _ h (fun d hd => hall d (by simp [hd]))
      exact ⟨by rw [i1, t1], by rw [i2, t2], by rw [i3, t3]⟩

/-- If the loop's collected messages contain a fresh flip message for a
hand, that hand's cooldown is armed to `cooldown_frames` at loop
exit. -/
theorem process_flip_armed (dets : Frame) :
    ∀ (s : DetectorState) (msgs : List String) (h : HandType) (d v : String),
      flipMsg h d v ∈ (process_detections s msgs dets).2 →
      flipMsg h d v ∉ msgs →
      (process_detections s msgs dets).1.flip_cooldown h = cooldown_frames := by
  induction dets with
  | nil =>
      intro s msgs h d v hin hnotin
      exact absurd hin hnotin
  | cons det rest ih =>
      intro s msgs h d v hin hnotin
      simp only [process_detections] at hin ⊢
      rcases htr : (track_hand_motion s det.1 det.2).1 with _ | m'
      · simp only [htr, List.append_nil] at hin ⊢
        exact ih _ _ _ _ _ hin hnotin
      · simp only [htr] at hin ⊢
        by_cases hmem : flipMsg h d v ∈ msgs ++ [m']
        · rcases List.mem_append.mp hmem with h1 | h2
          · exact absurd h1 hnotin
          · have hm' : flipMsg h d v = m' := by simpa using h2
            have hsh := track_some_shape s det.1 det.2 m' htr
            rcases hsh.1 with ⟨dir, v', hm2⟩
            have hhand : h = det.1 := flipMsg_hand_eq (hm'.trans hm2)
            have harmed : (track_hand_motion s det.1 det.2).2.flip_cooldown h
                = cooldown_frames := by
              rw [hhand]; exact hsh.2
            have hpos : 0 < (track_hand_motion s det.1 det.2).2.flip_cooldown h := by
              rw [harmed]; decide
            have hkeep := (process_cooldown_pos rest (track_hand_motion s det.1 det.2).2
              (msgs ++ [m']) h hpos).1
            rw [hkeep, harmed]
        · exact ih _ _ _ _ _ hin hmem

/-- A frame processed while a hand's cooldown is positive: that hand's
cooldown is decremented by exactly one, no flip message for it is
emitted, and (for a non-empty frame) its status is unchanged. -/
theorem detect_hands_cooldown_pos (s : DetectorState) (f : Frame) (h : HandType)
    (hc : 0 < s.flip_cooldown h) :
    (detect_hands s f).1.flip_cooldown h = s.flip_cooldown h - 1
    ∧ (∀ m ∈ (detect_hands s f).2, ∃ h' d v, h' ≠ h ∧ m = flipMsg h' d v)
    ∧ (f ≠ ([] : Frame) → (detect_hands s f).1.hand_motion_status h = s.hand_motion_status h) := by
  by_cases hf : f = ([] : Frame)
  · subst hf
    simp only [detect_hands, if_pos rfl]
    exact ⟨by simp [hc], by simp, by simp⟩
  · simp only [detect_hands, if_neg hf]
    obtain ⟨p1, p2, p3⟩ := process_cooldown_pos f s [] h hc
    refine ⟨by simp only [p1, if_pos hc], fun m hm => ?_, fun _ => by simp only [p2]⟩
    rcases p3 m hm with hmem | hother
    · simp at hmem
    · exact hother

/-- A frame whose output contains a flip message for a hand leaves that
hand's cooldown at `cooldown_frames - 1` (armed to 15, then decremented
once at frame end). -/
theorem detect_hands_flip_emitted (s : DetectorState) (f : Frame) (h : HandType) (d v : String)
    (hm : flipMsg h d v ∈ (detect_hands s f).2) :
    (detect_hands s f).1.flip_cooldown h = cooldown_frames - 1 := by
  by_cases hf : f = ([] : Frame)
  · subst hf
    simp only [detect_hands, if_pos rfl] at hm
    simp at hm
  · simp only [detect_hands, if_neg hf] at hm ⊢
    have h15 := process_flip_armed f s [] h d v hm (by simp)
    rw [h15]
    norm_num [cooldown_frames]

/-- The end-of-frame cooldown step keeps the counter non-negative. -/
theorem dec_step_nonneg (x : ℤ) (hx : 0 ≤ x) :
    0 ≤ (if 0 < x then x - 1 else x) := by
  split <;> omega

/-- One frame keeps cooldown counters non-negative. -/
theorem detect_hands_nonneg (s : DetectorState) (f : Frame) (h : HandType)
    (hnn : 0 ≤ s.flip_cooldown h) :
    0 ≤ (detect_hands s f).1.flip_cooldown h := by
  by_cases hf : f = ([] : Frame)
  · subst hf
    simp only [detect_hands, if_pos rfl]
    exact dec_step_nonneg (s.flip_cooldown h) hnn
  · simp only [detect_hands, if_neg hf]
    exact dec_step_nonneg ((process_detections s [] f).1.flip_cooldown h)
      (process_nonneg f s [] h hnn)

/-- Running at most `cooldown` frames after a hand's cooldown became
positive: the counter decreases by exactly one per frame, no flip
message for that hand appears, and (when every frame has a detection)
its status is unchanged throughout. -/
theorem run_blocked (fs : List Frame) :
    ∀ (s : DetectorState) (h : HandType), (fs.length : ℤ) ≤ s.flip_cooldown h →
      (run s fs).1.flip_cooldown h = s.flip_cooldown h - fs.length
      ∧ (∀ m ∈ (run s fs).2, ∃ h' d v, h' ≠ h ∧ m = flipMsg h' d v)
      ∧ ((∀ f ∈ fs, f ≠ ([] : Frame)) →
          (run s fs).1.hand_motion_status h = s.hand_motion_status h) := by
  induction fs with
  | nil => intro s h _; exact ⟨by simp [run], by simp [run], fun _ => rfl⟩
  | cons f fs ih =>
      intro s h hle
      have hc : 0 < s.flip_cooldown h := by
        simp only [List.length_cons] at hle
        push_cast at hle
        omega
      obtain ⟨d1, d2, d3⟩ := detect_hands_cooldown_pos s f h hc
      simp only [run]
      obtain ⟨r1, r2, r3⟩ := ih (detect_hands s f).1 h (by
        rw [d1]
        simp only [List.length_cons] at hle
        push_cast at hle ⊢
        omega)
      refine ⟨?_, fun m hm => ?_, fun hne => ?_⟩
      · rw [r1, d1]
        simp only [List.length_cons]
        push_cast
        ring
      · rcases List.mem_append.mp hm with h1 | h2
        · exact d2 m h1
        · exact r2 m h2
      · rw [r3 (fun f' hf' => hne f' (by simp [hf'])), d3 (hne f (by simp))]

/-- With no cooldown, a full window, a palm reversal and a fast enough
normal change, `detect_flipping_motion` emits the flip message and arms
the cooldown. -/
theorem detect_flipping_emits (s : DetectorState) (hand_type : HandType)
    (hcd : s.flip_cooldown hand_type = 0)
    (hlen : 5 ≤ (s.hand_history hand_type).length)
    (hpalm : oldest_palm (s.hand_history hand_type) ≠ newest_palm (s.hand_history hand_type))
    (havg : 0.015 < |avg_normal_change (s.hand_history hand_type)|) :
    detect_flipping_motion s hand_type =
      (some (flipMsg hand_type
              (if newest_palm (s.hand_history hand_type) = false then ("Palm to Back")
               else ("Back to Palm"))
              (fmt4 |avg_normal_change (s.hand_history hand_type)|)),
       { s with
           hand_motion_status := fun h =>
             if h = hand_type then
               ("Flipping: " ++
                 (if newest_palm (s.hand_history hand_type) = false then ("Palm to Back")
                  else ("Back to Palm")))
             else s.hand_motion_status h,
           flip_cooldown := fun h =>
             if h = hand_type then cooldown_frames else s.flip_cooldown h }) := by
  rcases detect_flipping_cases s hand_type with ⟨hc, e⟩ | ⟨_, _, hnc, e⟩ | ⟨_, _, _, _, e⟩
  · rcases hc with hc | hc
    · rw [hcd] at hc
      exact absurd hc (by norm_num)
    · omega
  · exact absurd ⟨hpalm, havg⟩ hnc
  · exact e

/-- An empty frame clears a non-empty history, resets the status to
Unknown and still decrements a positive cooldown. -/
theorem detect_hands_empty (s : DetectorState) (h : HandType)
    (hne : s.hand_history h ≠ []) :
    (detect_hands s ([] : Frame)).1.hand_history h = []
    ∧ (detect_hands s ([] : Frame)).1.hand_motion_status h = "Unknown"
    ∧ (detect_hands s ([] : Frame)).1.flip_cooldown h =
        (if 0 < s.flip_cooldown h then s.flip_cooldown h - 1 else s.flip_cooldown h) := by
  have hlen : 0 < (s.hand_history h).length := List.length_pos.mpr hne
  simp only [detect_hands, if_pos rfl]
  exact ⟨by simp [hlen], by simp [hlen], rfl⟩

/-- A non-empty frame with no detection of a hand leaves that hand's
history and status unchanged, decrementing only a positive cooldown. -/
theorem detect_hands_absent (s : DetectorState) (f : Frame) (h : HandType)
    (hf : f ≠ ([] : Frame)) (hno : ∀ det ∈ f, det.1 ≠ h) :
    (detect_hands s f).1.hand_history h = s.hand_history h
    ∧ (detect_hands s f).1.hand_motion_status h = s.hand_motion_status h
    ∧ (detect_hands s f).1.flip_cooldown h =
        (if 0 < s.flip_cooldown h then s.flip_cooldown h - 1 else s.flip_cooldown h) := by
  simp only [detect_hands, if_neg hf]
  obtain ⟨p1, p2, p3⟩ := process_other f s [] h hno
  exact ⟨p1, p2, by rw [p3]⟩

/-- A single-detection frame whose sample completes the flip conditions
emits exactly the flip message for that hand. -/
theorem detect_hands_emits (s : DetectorState) (h : HandType) (d : HandData)
    (hcd : s.flip_cooldown h = 0) (hcond : flip_conditions s h d) :
    (detect_hands s [(h, d)]).2 =
      [flipMsg h
        (if newest_palm (dequeAppend (s.hand_history h) d) = false then ("Palm to Back")
         else ("Back to Palm"))
        (fmt4 |avg_normal_change (dequeAppend (s.hand_history h) d)|)] := by
  simp only [flip_conditions] at hcond
  obtain ⟨hlen, hpalm, havg⟩ := hcond
  have hf : ([(h, d)] : Frame) ≠ [] := by simp
  simp only [detect_hands, if_neg hf, process_detections]
  simp only [track_hand_motion, eq_self_iff_true, if_true]
  rw [if_neg (by omega)]
  have hs1 : ({ s with
      hand_history := fun h' =>
        if h' = h then dequeAppend (s.hand_history h') d
        else s.hand_history h' } : DetectorState).hand_history h
      = dequeAppend (s.hand_history h) d := by simp
  rw [detect_flipping_emits _ h (by exact hcd) (by rw [hs1]; exact hlen)
    (by rw [hs1]; exact hpalm) (by rw [hs1]; exact havg)]
  simp [hs1]

/-- `track_hand_motion` preserves the history-capacity invariant. -/
theorem track_history_le (s : DetectorState) (hand_type : HandType) (d : HandData)
    (h : HandType) (hall : ∀ h', (s.hand_history h').length ≤ 10) :
    ((track_hand_motion s hand_type d).2.hand_history h).length ≤ 10 := by
  by_cases hh : h = hand_type
  · subst hh
    rw [track_hand_history]
    exact dequeAppend_length_le _ _ (hall h)
  · rw [(track_other s hand_type h d hh).1]
    exact hall h

/-- The detection loop preserves the history-capacity invariant. -/
theorem process_history_le (dets : Frame) :
    ∀ (s : DetectorState) (msgs : List String),
      (∀ h', (s.hand_history h').length ≤ 10) →
      ∀ h', ((process_detections s msgs dets).1.hand_history h').length ≤ 10 := by
  induction dets with
  | nil => intro s msgs hall h'; exact hall h'
  | cons det rest ih =>
      intro s msgs hall h'
      simp only [process_detections]
      exact ih _ _ (fun h'' => track_history_le s det.1 det.2 h'' hall) h'

/-- One frame preserves the history-capacity invariant. -/
theorem detect_hands_history_le (s : DetectorState) (f : Frame)
    (hall : ∀ h', (s.hand_history h').length ≤ 10) :
    ∀ h', ((detect_hands s f).1.hand_history h').length ≤ 10 := by
  intro h'
  by_cases hf : f = ([] : Frame)
  · subst hf
    by_cases hl : 0 < (s.hand_history h').length
    · simp [detect_hands, hl]
    · simp [detect_hands, hl, hall h']
  · simp only [detect_hands, if_neg hf]
    exact process_history_le f s [] hall h'

/-- C4: the thumb entry of `perFingerExtended` follows the four-way
table — Left/palm: tip.x > IP.x; Left/dorsal: tip.x < IP.x; Right/palm:
tip.x < IP.x; Right/dorsal: tip.x > IP.x — with palm/dorsal decided by
`is_palm_showing`. -/
theorem C4_thumb_rule (lm : LandmarkSet) :
    ((count_fingers lm HandType.Left).2.getD 0 false =
      (if is_palm_showing lm HandType.Left then decide ((lm 4).x > (lm 3).x)
       else decide ((lm 4).x < (lm 3).x)))
    ∧ ((count_fingers lm HandType.Right).2.getD 0 false =
      (if is_palm_showing lm HandType.Right then decide ((lm 4).x < (lm 3).x)
       else decide ((lm 4).x > (lm 3).x))) := by
  constructor <;> simp [count_fingers]

/-- C7: `perFingerExtended` always has exactly 5 entries, the extended
count equals the number of true entries, and each non-thumb finger is
extended iff its tip's y-coordinate is strictly below that of the joint
two landmark indices earlier. -/
theorem C7_finger_vector (lm : LandmarkSet) (hand_type : HandType) :
    (count_fingers lm hand_type).2.length = 5
    ∧ (count_fingers lm hand_type).1 = (count_fingers lm hand_type).2.count true
    ∧ (count_fingers lm hand_type).2.getD 1 false = decide ((lm 8).y < (lm 6).y)
    ∧ (count_fingers lm hand_type).2.getD 2 false = decide ((lm 12).y < (lm 10).y)
    ∧ (count_fingers lm hand_type).2.getD 3 false = decide ((lm 16).y < (lm 14).y)
    ∧ (count_fingers lm hand_type).2.getD 4 false = decide ((lm 20).y < (lm 18).y) := by
  refine ⟨?_, ?_, ?_, ?_, ?_, ?_⟩ <;> simp [count_fingers]

/-- C6 counterexample: on collinear landmarks (all at the origin) the
normal's z-component is 0 and both labels yield palmFacing = false, so
swapping the HandIdentity label does not flip the decision there — the
claim fails as universally stated. -/
theorem C6_swap_counterexample :
    is_palm_showing degenerateLm HandType.Left = is_palm_showing degenerateLm HandType.Right
    ∧ is_palm_showing degenerateLm HandType.Left = false := by
  constructor <;> with_unfolding_all decide

/-- C6 (amended): the palm rule is Right ↦ normal.z > 0 and Left ↦
normal.z < 0, and swapping only the label flips `palmFacing` whenever
the normal's z-component is non-zero. -/
theorem C6_handedness_antisymmetry (lm : LandmarkSet) :
    is_palm_showing lm HandType.Right = decide (0 < (palmNormal lm).z)
    ∧ is_palm_showing lm HandType.Left = decide ((palmNormal lm).z < 0)
    ∧ ((palmNormal lm).z ≠ 0 →
        is_palm_showing lm HandType.Left = !(is_palm_showing lm HandType.Right)) := by
  refine ⟨rfl, rfl, fun hz => ?_⟩
  simp only [is_palm_showing]
  rcases lt_trichotomy ((palmNormal lm).z) 0 with hlt | heq | hgt
  · simp [hlt, lt_asymm hlt]
  · exact absurd heq hz
  · simp [hgt, lt_asymm hgt]

/-- Witness for C6's amended claim at a non-degenerate landmark set. -/
theorem C6_handedness_antisymmetry_witness :
    is_palm_showing spreadLm HandType.Left = !(is_palm_showing spreadLm HandType.Right) :=
  (C6_handedness_antisymmetry spreadLm).2.2 (by with_unfolding_all decide)

/-- C8: motion histories are bounded by 10 and FIFO: every frame
preserves the capacity invariant for every identity, an append at
capacity evicts exactly the oldest sample leaving 10, and appending an
11th sample into an empty history leaves exactly the last 10 appended
samples — the 1st-appended one is evicted. -/
theorem C8_history_capacity_fifo :
    (∀ (s : DetectorState) (f : Frame),
        (∀ h', (s.hand_history h').length ≤ 10) →
        ∀ h', ((detect_hands s f).1.hand_history h').length ≤ 10)
    ∧ (∀ (l : List HandData) (d : HandData), l.length = 10 →
        dequeAppend l d = l.tail ++ [d] ∧ (dequeAppend l d).length = 10)
    ∧ (∀ l : List HandData, l.length = 11 →
        List.foldl dequeAppend [] l = l.tail
        ∧ (List.foldl dequeAppend [] l).length = 10) := by
  refine ⟨detect_hands_history_le, fun l d hl => ⟨dequeAppend_full l d hl, ?_⟩,
    fun l hl => ⟨foldl_dequeAppend_eleven l hl, ?_⟩⟩
  · rw [dequeAppend_full l d hl]
    simp [List.length_append, List.length_tail, hl]
  · rw [foldl_dequeAppend_eleven l hl]
    simp [List.length_tail, hl]

/-- Witness for C8 at concrete histories. -/
theorem C8_history_capacity_fifo_witness :
    (∀ h', ((detect_hands initState [(HandType.Left, oneSample)]).1.hand_history h').length ≤ 10)
    ∧ dequeAppend elevenSamples.tail (mkSample true 11)
        = elevenSamples.tail.tail ++ [mkSample true 11]
    ∧ List.foldl dequeAppend [] elevenSamples = elevenSamples.tail :=
  ⟨C8_history_capacity_fifo.1 initState [(HandType.Left, oneSample)]
      (by intro h'; cases h' <;> with_unfolding_all decide),
   (C8_history_capacity_fifo.2.1 elevenSamples.tail (mkSample true 11)
      (by with_unfolding_all decide)).1,
   (C8_history_capacity_fifo.2.2 elevenSamples (by with_unfolding_all decide)).1⟩

/-- C9: degenerate geometry never fails — a zero cross product leaves
the motion normal exactly the unnormalised zero vector, and the palm
classifier still returns a definite value (false for either label) on a
degenerate orientation normal. -/
theorem C9_degenerate_geometry (w i p : Vec3R) (lm : LandmarkSet) (hand_type : HandType)
    (hc : crossVecR (subVecR i w) (subVecR p w) = ⟨0, 0, 0⟩)
    (hq : palmNormal lm = ⟨0, 0, 0⟩) :
    handNormal w i p = ⟨0, 0, 0⟩ ∧ is_palm_showing lm hand_type = false := by
  constructor
  · simp only [handNormal, hc]
    have h0 : np_linalg_norm (⟨0, 0, 0⟩ : Vec3R) = 0 := by
      simp [np_linalg_norm]
    rw [h0]
    simp
  · simp only [is_palm_showing, hq]
    cases hand_type <;> simp

/-- Witness for C9 at collinear concrete points. -/
theorem C9_degenerate_geometry_witness :
    handNormal ⟨0, 0, 0⟩ ⟨1, 0, 0⟩ ⟨2, 0, 0⟩ = ⟨0, 0, 0⟩
    ∧ is_palm_showing degenerateLm HandType.Left = false :=
  C9_degenerate_geometry ⟨0, 0, 0⟩ ⟨1, 0, 0⟩ ⟨2, 0, 0⟩ degenerateLm HandType.Left
    (by simp [crossVecR, subVecR]) (by with_unfolding_all decide)

/-- C10: while an identity's cooldown is positive, the flip/motion
evaluation returns no event and leaves the state — in particular its
motionStatus — entirely unchanged (the Moving/Rotating/Stable
reclassification is skipped even for arbitrary wrist displacements);
consequently over any run of detection-bearing frames no longer than
the cooldown the previously set status label persists. -/
theorem C10_cooldown_blocks_evaluation :
    (∀ (s : DetectorState) (hand_type : HandType), 0 < s.flip_cooldown hand_type →
        detect_flipping_motion s hand_type = (none, s))
    ∧ (∀ (s : DetectorState) (hand_type : HandType) (fs : List Frame),
        (fs.length : ℤ) ≤ s.flip_cooldown hand_type →
        (∀ f ∈ fs, f ≠ ([] : Frame)) →
        (run s fs).1.hand_motion_status hand_type = s.hand_motion_status hand_type) :=
  ⟨detect_flipping_blocked,
   fun s hand_type fs hle hne => (run_blocked fs s hand_type hle).2.2 hne⟩

/-- Witness for C10: a cooldown of 5 blocks the evaluation, and the
Flipping label survives two frames of large wrist motion. -/
theorem C10_cooldown_blocks_evaluation_witness :
    detect_flipping_motion cdState HandType.Left = (none, cdState)
    ∧ (run cdState [movingFrame HandType.Left ⟨1, 0, 0⟩,
        movingFrame HandType.Left ⟨2, 0, 0⟩]).1.hand_motion_status HandType.Left
        = cdState.hand_motion_status HandType.Left :=
  ⟨C10_cooldown_blocks_evaluation.1 cdState HandType.Left (by with_unfolding_all decide),
   C10_cooldown_blocks_evaluation.2 cdState HandType.Left
     [movingFrame HandType.Left ⟨1, 0, 0⟩, movingFrame HandType.Left ⟨2, 0, 0⟩]
     (by with_unfolding_all decide) (by with_unfolding_all decide)⟩

/-- C2: with no cooldown and at least 5 samples, a flip event is
emitted iff the oldest and newest palm flags differ and the average
normal-z change has magnitude above 0.015; the specification's scenario
(palm true → false, normal-z 0.10, 0.07, 0.03, −0.02, −0.05) yields
avgChange −0.0375, emits "<Id> Hand flipped: Palm to Back
(velocity: 0.0375)" and arms the cooldown to 15. -/
theorem C2_flip_rule_and_scenario :
    (∀ (s : DetectorState) (hand_type : HandType),
        s.flip_cooldown hand_type = 0 → 5 ≤ (s.hand_history hand_type).length →
        ((detect_flipping_motion s hand_type).1.isSome ↔
          (oldest_palm (s.hand_history hand_type) ≠ newest_palm (s.hand_history hand_type)
            ∧ 0.015 < |avg_normal_change (s.hand_history hand_type)|)))
    ∧ (∀ hand_type : HandType,
        avg_normal_change ((scenarioState hand_type).hand_history hand_type) = -0.0375
        ∧ (detect_flipping_motion (scenarioState hand_type) hand_type).1
            = some (flipMsg hand_type ("Palm to Back") ("0.0375"))
        ∧ (detect_flipping_motion (scenarioState hand_type) hand_type).2.flip_cooldown
            hand_type = 15
        ∧ (detect_flipping_motion (scenarioState hand_type) hand_type).2.hand_motion_status
            hand_type = "Flipping: Palm to Back") := by
  constructor
  · intro s hand_type hcd hlen
    rcases detect_flipping_cases s hand_type with ⟨hc, e⟩ | ⟨_, _, hnc, e⟩ | ⟨_, _, hp, ha, e⟩
    · rcases hc with hc | hc
      · rw [hcd] at hc
        exact absurd hc (by norm_num)
      · omega
    · rw [e]
      exact iff_of_false (by simp) hnc
    · rw [e]
      exact iff_of_true (by simp) ⟨hp, ha⟩
  · intro hand_type
    cases hand_type <;> refine ⟨?_, ?_, ?_, ?_⟩ <;> with_unfolding_all decide

/-- Witness for C2: the scenario state does emit (both directions of
the rule exercised: the flip scenario emits, the constant-normal
palm-stable state does not). -/
theorem C2_flip_rule_and_scenario_witness :
    (detect_flipping_motion (scenarioState HandType.Left) HandType.Left).1.isSome
    ∧ ¬ (detect_flipping_motion (stableState HandType.Left) HandType.Left).1.isSome :=
  ⟨(C2_flip_rule_and_scenario.1 (scenarioState HandType.Left) HandType.Left rfl
      (by with_unfolding_all decide)).mpr
      ⟨by with_unfolding_all decide, by with_unfolding_all decide⟩,
   fun hs =>
     absurd ((C2_flip_rule_and_scenario.1 (stableState HandType.Left) HandType.Left rfl
       (by with_unfolding_all decide)).mp hs)
       (by with_unfolding_all decide)⟩

/-- C5: with no cooldown, at least 5 samples and no flip emitted, the
status becomes Moving when the wrist displacement between the
3rd-from-last and last samples exceeds 0.05 (compared via squared
norms), else Rotating when the average normal-z change has magnitude
above 0.01, else Stable; a frame that emits a flip sets a Flipping
label instead, which is none of Moving/Rotating/Stable. -/
theorem C5_motion_classification (s : DetectorState) (hand_type : HandType)
    (hcd : s.flip_cooldown hand_type = 0) (hlen : 5 ≤ (s.hand_history hand_type).length) :
    ((detect_flipping_motion s hand_type).1 = none →
      (detect_flipping_motion s hand_type).2.hand_motion_status hand_type =
        (if 0.05 ^ 2 < wrist_movement_sq (s.hand_history hand_type) then ("Moving")
         else if 0.01 < |avg_normal_change (s.hand_history hand_type)| then ("Rotating")
         else ("Stable")))
    ∧ ((detect_flipping_motion s hand_type).1.isSome →
        ∃ dir, (detect_flipping_motion s hand_type).2.hand_motion_status hand_type
            = "Flipping: " ++ dir
          ∧ "Flipping: " ++ dir ≠ "Moving"
          ∧ "Flipping: " ++ dir ≠ "Rotating"
          ∧ "Flipping: " ++ dir ≠ "Stable") := by
  have hflip_ne : ∀ dir t : String, t.length < 10 → "Flipping: " ++ dir ≠ t := by
    intro dir t hlt he
    have hl := congrArg String.length he
    rw [String.length_append] at hl
    have h10 : ("Flipping: " : String).length = 10 := rfl
    rw [h10] at hl
    omega
  rcases detect_flipping_cases s hand_type with ⟨hc, e⟩ | ⟨_, _, _, e⟩ | ⟨_, _, _, _, e⟩
  · rcases hc with hc | hc
    · rw [hcd] at hc
      exact absurd hc (by norm_num)
    · omega
  · constructor
    · intro _
      rw [e]
      simp
    · rw [e]
      intro hs
      simp at hs
  · constructor
    · intro hn
      rw [e] at hn
      simp at hn
    · intro _
      rw [e]
      refine ⟨(if newest_palm (s.hand_history hand_type) = false then ("Palm to Back")
               else ("Back to Palm")), by simp, ?_, ?_, ?_⟩
      · exact hflip_ne _ _ (by decide)
      · exact hflip_ne _ _ (by decide)
      · exact hflip_ne _ _ (by decide)

/-- Witness for C5: the constant stable state classifies by the motion
rule, and the flip scenario sets a Flipping label. -/
theorem C5_motion_classification_witness :
    ((detect_flipping_motion (stableState HandType.Right) HandType.Right).2.hand_motion_status
        HandType.Right =
      (if 0.05 ^ 2 < wrist_movement_sq ((stableState HandType.Right).hand_history HandType.Right)
       then ("Moving")
       else if 0.01 <
          |avg_normal_change ((stableState HandType.Right).hand_history HandType.Right)| then
         ("Rotating")
       else ("Stable")))
    ∧ (∃ dir, (detect_flipping_motion (scenarioState HandType.Right)
          HandType.Right).2.hand_motion_status HandType.Right = "Flipping: " ++ dir
        ∧ "Flipping: " ++ dir ≠ "Moving"
        ∧ "Flipping: " ++ dir ≠ "Rotating"
        ∧ "Flipping: " ++ dir ≠ "Stable") :=
  ⟨(C5_motion_classification (stableState HandType.Right) HandType.Right rfl
      (by with_unfolding_all decide)).1 (by with_unfolding_all decide),
   (C5_motion_classification (scenarioState HandType.Right) HandType.Right rfl
      (by with_unfolding_all decide)).2 (by with_unfolding_all decide)⟩

/-- C1 counterexample: Left is present in frame N (its detections are
[(Left, oneSample)]) and absent from frame N+1, whose detections
contain only Right; after processing frame N+1 Left's history still has
length 1, not 0 — an identity absent from a frame's detections is NOT
cleared when some other hand is detected in that frame. -/
theorem C1_absence_counterexample :
    (detect_hands initState [(HandType.Left, oneSample)]).1.hand_history HandType.Left ≠ []
    ∧ ((detect_hands (detect_hands initState [(HandType.Left, oneSample)]).1
        [(HandType.Right, oneSample)]).1.hand_history HandType.Left).length = 1 := by
  constructor <;> with_unfolding_all decide

/-- C1 (amended): an identity with a non-empty history is cleared only
by a frame with no detections at all — then its history has length 0
and its status is Unknown — while a non-empty frame that does not
detect it leaves its history and status unchanged; in both cases its
cooldown decrements by 1 exactly when positive. -/
theorem C1_absence_handling (s : DetectorState) (h : HandType)
    (hpre : s.hand_history h ≠ []) :
    ((detect_hands s ([] : Frame)).1.hand_history h = []
      ∧ (detect_hands s ([] : Frame)).1.hand_motion_status h = "Unknown"
      ∧ (detect_hands s ([] : Frame)).1.flip_cooldown h =
          (if 0 < s.flip_cooldown h then s.flip_cooldown h - 1 else s.flip_cooldown h))
    ∧ (∀ f : Frame, f ≠ [] → (∀ det ∈ f, det.1 ≠ h) →
        (detect_hands s f).1.hand_history h = s.hand_history h
        ∧ (detect_hands s f).1.hand_motion_status h = s.hand_motion_status h
        ∧ (detect_hands s f).1.flip_cooldown h =
            (if 0 < s.flip_cooldown h then s.flip_cooldown h - 1 else s.flip_cooldown h)) :=
  ⟨detect_hands_empty s h hpre, fun f hf hno => detect_hands_absent s f h hf hno⟩

/-- Witness for C1's amended claim: after Left was present, an empty
frame clears it while a Right-only frame leaves it unchanged. -/
theorem C1_absence_handling_witness :
    (detect_hands (detect_hands initState [(HandType.Left, oneSample)]).1
        ([] : Frame)).1.hand_history HandType.Left = []
    ∧ (detect_hands (detect_hands initState [(HandType.Left, oneSample)]).1
        [(HandType.Right, oneSample)]).1.hand_history HandType.Left
        = (detect_hands initState [(HandType.Left, oneSample)]).1.hand_history HandType.Left :=
  ⟨(C1_absence_handling (detect_hands initState [(HandType.Left, oneSample)]).1 HandType.Left
      (by with_unfolding_all decide)).1.1,
   ((C1_absence_handling (detect_hands initState [(HandType.Left, oneSample)]).1 HandType.Left
      (by with_unfolding_all decide)).2 [(HandType.Right, oneSample)]
      (by with_unfolding_all decide) (by with_unfolding_all decide)).1⟩

/-- C3: cooldown discipline — counters stay non-negative and decrement
by exactly 1 per frame while positive; a frame whose output contains a
flip message for an identity ends with its counter at 14; over the
following at most 14 frames no flip message for that identity can
appear while the counter counts down to 0, and on the 15th frame a
single-detection frame satisfying the flip conditions emits a flip
message again. -/
theorem C3_cooldown_discipline :
    (∀ (s : DetectorState) (f : Frame) (h : HandType),
        0 ≤ s.flip_cooldown h → 0 ≤ (detect_hands s f).1.flip_cooldown h)
    ∧ (∀ (s : DetectorState) (f : Frame) (h : HandType),
        0 < s.flip_cooldown h →
        (detect_hands s f).1.flip_cooldown h = s.flip_cooldown h - 1)
    ∧ (∀ (s : DetectorState) (f : Frame) (h : HandType) (d v : String),
        flipMsg h d v ∈ (detect_hands s f).2 →
        (detect_hands s f).1.flip_cooldown h = 14
        ∧ (∀ fs : List Frame, fs.length ≤ 14 →
            (∀ m ∈ (run (detect_hands s f).1 fs).2, ∀ d' v' : String, m ≠ flipMsg h d' v')
            ∧ (run (detect_hands s f).1 fs).1.flip_cooldown h = 14 - fs.length)
        ∧ (∀ (fs : List Frame) (d15 : HandData), fs.length = 14 →
            flip_conditions (run (detect_hands s f).1 fs).1 h d15 →
            flipMsg h
                (if newest_palm (dequeAppend
                    ((run (detect_hands s f).1 fs).1.hand_history h) d15) = false
                 then ("Palm to Back") else ("Back to Palm"))
                (fmt4 |avg_normal_change (dequeAppend
                    ((run (detect_hands s f).1 fs).1.hand_history h) d15)|)
              ∈ (detect_hands (run (detect_hands s f).1 fs).1 [(h, d15)]).2)) := by
  refine ⟨fun s f h hnn => detect_hands_nonneg s f h hnn,
          fun s f h hc => (detect_hands_cooldown_pos s f h hc).1,
          fun s f h d v hm => ?_⟩
  have h14 : (detect_hands s f).1.flip_cooldown h = 14 := by
    rw [detect_hands_flip_emitted s f h d v hm]
    norm_num [cooldown_frames]
  refine ⟨h14, fun fs hlen => ?_, fun fs d15 hlen14 hcond => ?_⟩
  · obtain ⟨r1, r2, -⟩ := run_blocked fs (detect_hands s f).1 h
      (by rw [h14]; exact_mod_cast hlen)
    refine ⟨fun m hm' d' v' he => ?_, by rw [r1, h14]⟩
    obtain ⟨h'', d'', v'', hne, hform⟩ := r2 m hm'
    exact hne (flipMsg_hand_eq (hform.symm.trans he))
  · have hcd0 : (run (detect_hands s f).1 fs).1.flip_cooldown h = 0 := by
      obtain ⟨r1, -, -⟩ := run_blocked fs (detect_hands s f).1 h
        (by rw [h14, hlen14]; norm_num)
      rw [r1, h14, hlen14]
      norm_num
    rw [detect_hands_emits (run (detect_hands s f).1 fs).1 h d15 hcd0 hcond]
    simp

/-- Witness for C3 at concrete states: non-negativity from the initial
state, the decrement from a cooldown of 5, and a cooldown of 14 right
after the scenario's flip frame. -/
theorem C3_cooldown_discipline_witness :
    0 ≤ (detect_hands initState ([] : Frame)).1.flip_cooldown HandType.Right
    ∧ (detect_hands cdState ([] : Frame)).1.flip_cooldown HandType.Right
        = cdState.flip_cooldown HandType.Right - 1
    ∧ (detect_hands (preFlipState HandType.Left) (flipFrame HandType.Left)).1.flip_cooldown
        HandType.Left = 14 :=
  ⟨C3_cooldown_discipline.1 initState ([] : Frame) HandType.Right (by decide),
   C3_cooldown_discipline.2.1 cdState ([] : Frame) HandType.Right
     (by with_unfolding_all decide),
   (C3_cooldown_discipline.2.2 (preFlipState HandType.Left) (flipFrame HandType.Left)
      HandType.Left ("Palm to Back") ("0.0375") (by with_unfolding_all decide)).1⟩
